import Mathlib

/-!
Verification development for the open-graph-image-generator service.

The Python source is shallowly embedded: Python strings are modelled as
`List Char` (written `Str`), times as integer seconds (`Int`), the Redis
cache as a map from keys to a value together with an absolute expiry
instant, and the durable screenshot table as a list of records ordered
newest-first (SQLAlchemy's `order_by(created_at.desc()).first()` becomes
`head?` of the filtered list).  Fallible Python code (raised exceptions)
is modelled with `Except`; outcomes of external collaborators (the
screenshot/upload step, the Celery handoff, database commits of
best-effort failure recording) are supplied as explicit oracle
parameters so that the control flow of the handlers can be stated and
proved as pure functions.
-/

namespace OgImage

/-- Python `str` modelled as a list of characters. -/
abbrev Str := List Char

/-- Python `str.lower()`. -/
def pyLower (s : Str) : Str := s.map Char.toLower

/-- Python `s.endswith(suf)`. -/
def pyEndsWith (s suf : Str) : Bool := suf.isSuffixOf s

/-- Python `str(x)` for an optional string argument: `str(None) = "None"`. -/
def pyStr (o : Option Str) : Str :=
  match o with
  | some s => s
  | none => "None".data

/-- Python `a or b` for an optional string `a` (falsy when `None` or empty). -/
def pyOr (o : Option Str) (d : Str) : Str :=
  match o with
  | some s => if s = [] then d else s
  | none => d

/-- Python truthiness of an optional string (`None` and `""` are falsy). -/
def pyTruthy (o : Option Str) : Bool :=
  match o with
  | some s => !s.isEmpty
  | none => false

/-! ### The screenshot record (models/db_models.py) -/

/-- `ScreenshotStatus` enum from `app/models/db_models.py`. -/
inductive ScreenshotStatus where
  | pending
  | processing
  | completed
  | failed
deriving DecidableEq, Repr

/-- A row of the `screenshots` table (`app/models/db_models.py`, class
`Screenshot`).  Times are integer seconds. -/
structure Rec where
  id : Nat
  url : Str
  s3_path : Option Str
  created_at : Int
  expires_at : Int
  status : ScreenshotStatus
  error_message : Option Str
deriving DecidableEq, Repr

/-- The screenshot table, newest record first (creation prepends, so
`head?` of a URL-filtered table is SQLAlchemy's
`order_by(created_at.desc()).first()`). -/
abbrev DbState := List Rec

/-- Fetch a record by id: `db.query(Screenshot).filter(Screenshot.id == rid).first()`. -/
def getRecord (db : DbState) (rid : Nat) : Option Rec :=
  db.find? (fun r => r.id = rid)

/-- The field assignments performed by `_update_db_status`
(`app/tasks/screenshot.py` lines 58-66) on the fetched record: the status
is assigned unconditionally; a COMPLETED update stores `s3_path` and
clears `error_message`; a FAILED update stores `str(error_message)[:500]`. -/
def applyUpdate (r : Rec) (status : ScreenshotStatus) (s3_path : Option Str)
    (error_message : Option Str) : Rec :=
  let r' := { r with status := status }
  match status with
  | .completed => { r' with s3_path := s3_path, error_message := none }
  | .failed => { r' with error_message := some ((pyStr error_message).take 500) }
  | _ => r'

/-- Replace the first record with the given id (the SQLAlchemy session
mutates the single object returned by `.first()`). -/
def updateFirst (db : DbState) (rid : Nat) (f : Rec → Rec) : DbState :=
  match db with
  | [] => []
  | r :: rest => if r.id = rid then f r :: rest else r :: updateFirst rest rid f

/-- `_update_db_status` (`app/tasks/screenshot.py`): updates the record if
found and reports whether it was found.  The `db.commit()` failure path
re-raises; commit outcomes are supplied by oracles at the call sites that
guard against them. -/
def _update_db_status (db : DbState) (record_id : Nat) (status : ScreenshotStatus)
    (s3_path : Option Str) (error_message : Option Str) : DbState × Bool :=
  match getRecord db record_id with
  | some _ =>
      (updateFirst db record_id (fun r => applyUpdate r status s3_path error_message), true)
  | none => (db, false)

/-- `create_db_record` (`app/api/utils.py` lines 99-117) builds a new
PENDING record with the given absolute expiry. -/
def newRecord (id : Nat) (url : Str) (now expires_at : Int) : Rec :=
  { id := id, url := url, s3_path := none, created_at := now,
    expires_at := expires_at, status := .pending, error_message := none }

/-- `find_existing_record` (`app/api/utils.py` lines 89-96): most recent
record for a URL. -/
def find_existing_record (db : DbState) (url : Str) : Option Rec :=
  (db.filter (fun r => r.url = url)).head?

/-! ### The cache (services/cache.py and api/utils.py) -/

/-- The Redis cache: each present key holds the stored `s3_url` value and
the absolute instant at which the key expires. -/
def CacheState := Str → Option (Str × Int)

/-- `set_cache` (`app/services/cache.py`): `SETEX key ttl value`, expiring
`ttl` seconds after the write instant `now`. -/
def set_cache (c : CacheState) (now : Int) (key : Str) (s3_url : Str) (ttl : Int) :
    CacheState :=
  fun k => if k = key then some (s3_url, now + ttl) else c k

/-- `get_cache` (`app/services/cache.py`): a key is visible until its
expiry instant. -/
def get_cache (c : CacheState) (now : Int) (key : Str) : Option Str :=
  match c key with
  | some (v, e) => if now < e then some v else none
  | none => none

/-- `check_cache` (`app/api/utils.py` lines 63-70): every value written
through `set_cache` in this model is the dict `{"s3_url": v}`, so the
shape check always passes and the lookup returns the stored `s3_url`. -/
def check_cache (c : CacheState) (now : Int) (key : Str) : Option Str :=
  get_cache c now key

/-- `update_cache` (`app/api/utils.py` lines 73-83):
`cache_ttl = max(0, int((expiry_time_utc - now).total_seconds()))`; the
entry is written exactly when `cache_ttl > 0` and `s3_url` is truthy. -/
def update_cache (c : CacheState) (now : Int) (key : Str) (s3_url : Str)
    (expiry_time_utc : Int) : CacheState :=
  let cache_ttl := max 0 (expiry_time_utc - now)
  if 0 < cache_ttl ∧ s3_url ≠ [] then set_cache c now key s3_url cache_ttl else c

/-! ### URL validation (api/utils.py, validate_domain) -/

/-- The result of `urllib.parse.urlparse` on the request URL, restricted
to the components the validator and the handlers read.  The network
location (`netloc`) is the host followed by `:port` when an explicit port
is present. -/
structure Url where
  scheme : Str
  host : Str
  port : Option Str
  path : Str
deriving DecidableEq, Repr

/-- `parsed_url.netloc`. -/
def netloc (u : Url) : Str :=
  u.host ++ (match u.port with
             | some p => ':' :: p
             | none => [])

/-- `str(url)` as the handlers use it (cache keys and DB lookups). -/
def urlStr (u : Url) : Str :=
  u.scheme ++ "://".data ++ netloc u ++ u.path

/-- The two raise sites of `DomainValidationError` inside
`validate_domain` (`app/api/utils.py` lines 38-52).  (In the source both
are re-wrapped once by the `except ValueError` clause, which prefixes the
message with "URL validation error: "; the reason structure is what the
claims are about, so it is kept as a tag.) -/
inductive DomainValidationError where
  | invalidScheme (u : Url)
  | notAllowed (domain : Str)
deriving DecidableEq, Repr

/-- `validate_domain` (`app/api/utils.py` lines 29-57): the lowercased
`netloc` must be non-empty with an http/https scheme, and when the
allow-list is configured (a non-empty list) the lowercased netloc must
equal an allowed domain or end with `"." + allowed`. -/
def validate_domain (cfg : List Str) (u : Url) : Except DomainValidationError Str :=
  let domain := pyLower (netloc u)
  if ¬((u.scheme = "http".data ∨ u.scheme = "https".data) ∧ domain ≠ []) then
    .error (.invalidScheme u)
  else if cfg ≠ [] ∧
      ¬(cfg.any fun allowed => domain = allowed || pyEndsWith domain ('.' :: allowed)) then
    .error (.notAllowed domain)
  else
    .ok domain

/-! ### Generation work (api/utils.py, tasks/screenshot.py) -/

/-- `run_sync_generation` (`app/api/utils.py` lines 123-175).  `work` is
the outcome of `_perform_screenshot_and_upload` (the Renderer+Publisher
step); `failUpdateOk` tells whether the best-effort recording of FAILED
commits or itself raises.  Returns the surfaced result together with the
resulting table and cache. -/
def run_sync_generation (db : DbState) (cache : CacheState) (now : Int)
    (record_id : Nat) (work : Except Str Str) (failUpdateOk : Bool)
    (cache_key : Str) (expires_at : Int) : Except Str Str × DbState × CacheState :=
  let db1 := (_update_db_status db record_id .processing none none).1
  match work with
  | .ok s3_url =>
      let db2 := (_update_db_status db1 record_id .completed (some s3_url) none).1
      let cache2 := update_cache cache now cache_key s3_url expires_at
      (.ok s3_url, db2, cache2)
  | .error exc =>
      let db2 :=
        if failUpdateOk then
          (_update_db_status db1 record_id .failed none (some exc)).1
        else db1
      (.error exc, db2, cache)

/-- `dispatch_celery_task` (`app/api/utils.py` lines 178-206).
`enqueueOk` is the outcome of the `.delay(...)` handoff; on handoff
failure the record is best-effort marked FAILED with "Failed to queue
task" and `HTTPException(500, "Failed to queue generation task")` is
raised. -/
def dispatch_celery_task (db : DbState) (record_id : Nat) (enqueueOk : Bool)
    (failUpdateOk : Bool) : Except (Nat × Str) Unit × DbState :=
  if enqueueOk then (.ok (), db)
  else
    let db2 :=
      if failUpdateOk then
        (_update_db_status db record_id .failed none
          (some "Failed to queue task".data)).1
      else db
    (.error (500, "Failed to queue generation task".data), db2)

/-! ### Completion poller (api/utils.py, poll_task_completion) -/

/-- The four exits of `poll_task_completion`: return of `s3_path`,
`HTTPException(500, "Image generation failed: ...")`,
`HTTPException(500, "Error checking generation status. Record not found.")`
and `HTTPException(504, "Image generation timed out. ...")`. -/
inductive PollResult where
  | completedResult (s3_path : Option Str)
  | failedResult (status_code : Nat) (detail : Str)
  | notFoundResult (status_code : Nat) (detail : Str)
  | timeoutResult (status_code : Nat) (detail : Str)
deriving DecidableEq, Repr

def maxWaitSeconds : Nat := 60
def pollIntervalSeconds : Nat := 2

def pollNotFoundDetail : Str := "Error checking generation status. Record not found.".data
def pollTimeoutDetail : Str :=
  "Image generation timed out. Please try again later or check API status.".data
def pollFailedDetail (error_message : Option Str) : Str :=
  "Image generation failed: ".data ++ pyOr error_message "Unknown error".data

/-- One iteration per remaining poll slot of the `while` loop of
`poll_task_completion` (`app/api/utils.py` lines 223-254).  `store t` is
the record-store view of the polled record at elapsed time `t`; the loop
body runs at `t = 0, 2, 4, ...` and the fuel counts the poll slots left
before the 60-second deadline. -/
def pollLoop (store : Nat → Option Rec) (cache : CacheState) (now : Int)
    (cache_key : Str) : Nat → Nat → PollResult × CacheState
  | 0, _ => (.timeoutResult 504 pollTimeoutDetail, cache)
  | fuel + 1, t =>
    match store t with
    | some r =>
        if r.status = .completed then
          let cache' :=
            if pyTruthy r.s3_path then
              update_cache cache (now + t) cache_key (r.s3_path.getD []) r.expires_at
            else cache
          (.completedResult r.s3_path, cache')
        else if r.status = .failed then
          (.failedResult 500 (pollFailedDetail r.error_message), cache)
        else
          pollLoop store cache now cache_key fuel (t + pollIntervalSeconds)
    | none => (.notFoundResult 500 pollNotFoundDetail, cache)

/-- `poll_task_completion` (`app/api/utils.py` lines 212-261): polls at a
fixed 2-second interval under the 60-second deadline (30 poll slots at
elapsed times 0, 2, ..., 58; the loop condition fails at 60). -/
def poll_task_completion (store : Nat → Option Rec) (cache : CacheState) (now : Int)
    (cache_key : Str) : PollResult × CacheState :=
  pollLoop store cache now cache_key (maxWaitSeconds / pollIntervalSeconds) 0

/-! ### The request handlers (api/endpoints.py) -/

/-- The configuration the handlers read (`app/config.py`).  An empty
allow-list models the unset/empty setting, which Python treats as falsy
(all domains allowed). -/
structure Env where
  ALLOWED_SCREENSHOT_DOMAINS : List Str
  CELERY_ENABLED : Bool
  SCREENSHOT_DEFAULT_TTL : Int

/-- The query parameters of a generation request (`ttl` in hours). -/
structure GenRequest where
  url : Url
  ttl : Option Int
  width : Nat
  height : Nat
  force_refresh : Bool

/-- Outcomes of the external collaborators touched during one request:
whether `create_db_record` commits, the result of the
Renderer+Publisher step (`_perform_screenshot_and_upload`), whether the
Celery handoff succeeds, and whether the best-effort FAILED recording
commits. -/
structure Oracles where
  createOk : Bool
  work : Except Str Str
  enqueueOk : Bool
  failUpdateOk : Bool

/-- `f"og_image:{url}:{width}:{height}"`. -/
def og_cache_key (u : Url) (width height : Nat) : Str :=
  "og_image:".data ++ urlStr u ++ ":".data ++ (toString width).data
    ++ ":".data ++ (toString height).data

/-- The body of the 400 response for a validation failure.  The source
message text interpolates the URL or domain; only the reason structure is
kept here. -/
def validationDetail (e : DomainValidationError) : Str :=
  match e with
  | .invalidScheme _ => "Invalid or unsupported URL scheme".data
  | .notAllowed d => "Domain not allowed: ".data ++ d

/-- Responses of the `/generate` endpoint: `create_error_response`,
`CachedResponse` (with status "cached" or "generated") and
`ProcessingResponse`. -/
inductive GenResponse where
  | errorResponse (status_code : Nat) (message : Str)
  | cachedResponse (st : Str) (image_url : Str)
  | processingResponse (task_id : Nat)
deriving DecidableEq, Repr

/-- The observable outcome of one `/generate` request: the response, the
resulting table and cache, the id of the record created by this request
(if any), and which collaborators were invoked (`cacheChecked` — cache
lookup performed; `dispatched` — Celery handoff attempted; `ranSync` —
inline Renderer+Publisher attempt started). -/
structure GenResult where
  response : GenResponse
  db : DbState
  cache : CacheState
  createdRecord : Option Nat
  cacheChecked : Bool
  dispatched : Bool
  ranSync : Bool

/-- The create-and-generate tail of `generate_og_image`
(`app/api/endpoints.py` lines 140-185): create a PENDING record, then
either dispatch to Celery or run the inline generation. -/
def generate_new (env : Env) (db : DbState) (cache : CacheState) (now : Int)
    (req : GenRequest) (cache_key : Str) (future_expiry_time : Int) (newId : Nat)
    (ors : Oracles) (cacheChecked : Bool) : GenResult :=
  if ors.createOk then
    let db1 := newRecord newId (urlStr req.url) now future_expiry_time :: db
    if env.CELERY_ENABLED then
      match dispatch_celery_task db1 newId ors.enqueueOk ors.failUpdateOk with
      | (.ok _, db2) =>
          { response := .processingResponse newId, db := db2, cache := cache,
            createdRecord := some newId, cacheChecked := cacheChecked,
            dispatched := true, ranSync := false }
      | (.error (code, detail), db2) =>
          { response := .errorResponse code detail, db := db2, cache := cache,
            createdRecord := some newId, cacheChecked := cacheChecked,
            dispatched := true, ranSync := false }
    else
      match run_sync_generation db1 cache now newId ors.work ors.failUpdateOk
          cache_key future_expiry_time with
      | (.ok s3_url, db2, cache2) =>
          { response := .cachedResponse "generated".data s3_url, db := db2,
            cache := cache2, createdRecord := some newId, cacheChecked := cacheChecked,
            dispatched := false, ranSync := true }
      | (.error exc, db2, cache2) =>
          { response := .errorResponse 500 ("Generation failed: ".data ++ exc),
            db := db2, cache := cache2, createdRecord := some newId,
            cacheChecked := cacheChecked, dispatched := false, ranSync := true }
  else
    { response := .errorResponse 500 "Database error during record creation".data,
      db := db, cache := cache, createdRecord := none, cacheChecked := cacheChecked,
      dispatched := false, ranSync := false }

/-- `generate_og_image` (`app/api/endpoints.py` lines 55-185): validate,
check the cache, check the most recent record, and otherwise create and
generate. -/
def generate_og_image (env : Env) (db : DbState) (cache : CacheState) (now : Int)
    (req : GenRequest) (newId : Nat) (ors : Oracles) : GenResult :=
  match validate_domain env.ALLOWED_SCREENSHOT_DOMAINS req.url with
  | .error e =>
      { response := .errorResponse 400 (validationDetail e), db := db, cache := cache,
        createdRecord := none, cacheChecked := false, dispatched := false,
        ranSync := false }
  | .ok _ =>
      let cache_key := og_cache_key req.url req.width req.height
      let cached := if req.force_refresh then none else check_cache cache now cache_key
      match cached with
      | some s3_url =>
          { response := .cachedResponse "cached".data s3_url, db := db, cache := cache,
            createdRecord := none, cacheChecked := true, dispatched := false,
            ranSync := false }
      | none =>
          let cacheChecked := !req.force_refresh
          let ttl_seconds :=
            match req.ttl with
            | some h => h * 3600
            | none => env.SCREENSHOT_DEFAULT_TTL
          let future_expiry_time := now + ttl_seconds
          match find_existing_record db (urlStr req.url), req.force_refresh with
          | some r, false =>
              if r.status = .completed ∧ now < r.expires_at then
                if pyTruthy r.s3_path then
                  let s3 := r.s3_path.getD []
                  { response := .cachedResponse "cached".data s3, db := db,
                    cache := update_cache cache now cache_key s3 r.expires_at,
                    createdRecord := none, cacheChecked := cacheChecked,
                    dispatched := false, ranSync := false }
                else
                  generate_new env db cache now req cache_key future_expiry_time
                    newId ors cacheChecked
              else if (r.status = .pending ∨ r.status = .processing) ∧
                  now < r.expires_at then
                { response := .processingResponse r.id, db := db, cache := cache,
                  createdRecord := none, cacheChecked := cacheChecked,
                  dispatched := false, ranSync := false }
              else
                generate_new env db cache now req cache_key future_expiry_time
                  newId ors cacheChecked
          | _, _ =>
              generate_new env db cache now req cache_key future_expiry_time
                newId ors cacheChecked

/-- Responses of the root endpoint: the info page, a 307 redirect to the
image, or an HTML error page carrying a status code and the failure
detail (HTML boilerplate elided). -/
inductive RootResponse where
  | infoPage
  | redirectResponse (url : Option Str)
  | htmlError (status_code : Nat) (message : Str)
deriving DecidableEq, Repr

/-- The observable outcome of one root request; `polled` is the record id
handed to `poll_task_completion`, when polling happened. -/
structure RootResult where
  response : RootResponse
  db : DbState
  cache : CacheState
  createdRecord : Option Nat
  cacheChecked : Bool
  dispatched : Bool
  ranSync : Bool
  polled : Option Nat

/-- How `root_handler` surfaces the `HTTPException`s raised by
`poll_task_completion`: the `except HTTPException` clause re-wraps the
detail with the "Image generation failed: " prefix. -/
def root_poll (pollStore : Nat → Option Rec) (cache : CacheState) (now : Int)
    (cache_key : Str) : RootResponse × CacheState :=
  match poll_task_completion pollStore cache now cache_key with
  | (.completedResult s3_path, cache2) => (.redirectResponse s3_path, cache2)
  | (.failedResult code detail, cache2) =>
      (.htmlError code ("Image generation failed: ".data ++ detail), cache2)
  | (.notFoundResult code detail, cache2) =>
      (.htmlError code ("Image generation failed: ".data ++ detail), cache2)
  | (.timeoutResult code detail, cache2) =>
      (.htmlError code ("Image generation failed: ".data ++ detail), cache2)

/-- Step 3 of `root_handler` (`app/api/endpoints.py` lines 319-384):
generate new or poll the in-flight task.  `record`/`task_id_to_poll`
carry the values the preceding DB check left in the handler's local
variables. -/
def root_generate (env : Env) (db : DbState) (cache : CacheState) (now : Int)
    (req : GenRequest) (cache_key : Str) (future_expiry_time : Int) (newId : Nat)
    (ors : Oracles) (pollStore : Nat → Option Rec) (record : Option Rec)
    (task_id_to_poll : Option Nat) (cacheChecked : Bool) : RootResult :=
  match record, task_id_to_poll with
  | none, none =>
      if ors.createOk then
        let db1 := newRecord newId (urlStr req.url) now future_expiry_time :: db
        if env.CELERY_ENABLED then
          match dispatch_celery_task db1 newId ors.enqueueOk ors.failUpdateOk with
          | (.ok _, db2) =>
              let pr := root_poll pollStore cache now cache_key
              { response := pr.1, db := db2, cache := pr.2,
                createdRecord := some newId, cacheChecked := cacheChecked,
                dispatched := true, ranSync := false, polled := some newId }
          | (.error (code, detail), db2) =>
              { response := .htmlError code ("Image generation failed: ".data ++ detail),
                db := db2, cache := cache, createdRecord := some newId,
                cacheChecked := cacheChecked, dispatched := true, ranSync := false,
                polled := none }
        else
          match run_sync_generation db1 cache now newId ors.work ors.failUpdateOk
              cache_key future_expiry_time with
          | (.ok s3_url, db2, cache2) =>
              { response := .redirectResponse (some s3_url), db := db2, cache := cache2,
                createdRecord := some newId, cacheChecked := cacheChecked,
                dispatched := false, ranSync := true, polled := none }
          | (.error _, db2, cache2) =>
              { response := .htmlError 500
                  "An unexpected error occurred during image generation.".data,
                db := db2, cache := cache2, createdRecord := some newId,
                cacheChecked := cacheChecked, dispatched := false, ranSync := true,
                polled := none }
      else
        { response := .htmlError 500
            ("Image generation failed: ".data ++ "Database error during record creation".data),
          db := db, cache := cache, createdRecord := none, cacheChecked := cacheChecked,
          dispatched := false, ranSync := false, polled := none }
  | _, some tid =>
      let pr := root_poll pollStore cache now cache_key
      { response := pr.1, db := db, cache := pr.2, createdRecord := none,
        cacheChecked := cacheChecked, dispatched := false, ranSync := false,
        polled := some tid }
  | some _, none =>
      if env.CELERY_ENABLED then
        { response := .htmlError 500
            "Image generation is in progress or encountered an issue. Please check API status or try again.".data,
          db := db, cache := cache, createdRecord := none, cacheChecked := cacheChecked,
          dispatched := false, ranSync := false, polled := none }
      else
        { response := .htmlError 500
            ("Image generation failed: ".data ++ "Internal error after sync processing.".data),
          db := db, cache := cache, createdRecord := none, cacheChecked := cacheChecked,
          dispatched := false, ranSync := false, polled := none }

/-- `root_handler` (`app/api/endpoints.py` lines 221-384).  With no `url`
parameter the info page is served; otherwise: validate, check the cache
(a hit with a truthy `s3_url` redirects), check the most recent record,
then generate new or poll per `root_generate`. -/
def root_handler (env : Env) (db : DbState) (cache : CacheState) (now : Int)
    (urlReq : Option GenRequest) (newId : Nat) (ors : Oracles)
    (pollStore : Nat → Option Rec) : RootResult :=
  match urlReq with
  | none =>
      { response := .infoPage, db := db, cache := cache, createdRecord := none,
        cacheChecked := false, dispatched := false, ranSync := false, polled := none }
  | some req =>
    match validate_domain env.ALLOWED_SCREENSHOT_DOMAINS req.url with
    | .error e =>
        { response := .htmlError 400 ("URL validation failed: ".data ++ validationDetail e),
          db := db, cache := cache, createdRecord := none, cacheChecked := false,
          dispatched := false, ranSync := false, polled := none }
    | .ok _ =>
      let cache_key := og_cache_key req.url req.width req.height
      let ttl_seconds :=
        match req.ttl with
        | some h => h * 3600
        | none => env.SCREENSHOT_DEFAULT_TTL
      let future_expiry_time := now + ttl_seconds
      let cached := if req.force_refresh then none else check_cache cache now cache_key
      let cacheHit :=
        match cached with
        | some s3 => if s3 = [] then none else some s3
        | none => none
      match cacheHit with
      | some s3 =>
          { response := .redirectResponse (some s3), db := db, cache := cache,
            createdRecord := none, cacheChecked := true, dispatched := false,
            ranSync := false, polled := none }
      | none =>
        let cacheChecked := !req.force_refresh
        let record0 :=
          if req.force_refresh then none else find_existing_record db (urlStr req.url)
        match record0 with
        | some r =>
            if r.status = .completed ∧ now < r.expires_at then
              if pyTruthy r.s3_path then
                let s3 := r.s3_path.getD []
                { response := .redirectResponse (some s3), db := db,
                  cache := update_cache cache now cache_key s3 r.expires_at,
                  createdRecord := none, cacheChecked := cacheChecked,
                  dispatched := false, ranSync := false, polled := none }
              else
                root_generate env db cache now req cache_key future_expiry_time newId
                  ors pollStore (some r) none cacheChecked
            else if (r.status = .pending ∨ r.status = .processing) ∧
                now < r.expires_at then
              if env.CELERY_ENABLED then
                root_generate env db cache now req cache_key future_expiry_time newId
                  ors pollStore (some r) (some r.id) cacheChecked
              else
                root_generate env db cache now req cache_key future_expiry_time newId
                  ors pollStore none none cacheChecked
            else
              root_generate env db cache now req cache_key future_expiry_time newId
                ors pollStore none none cacheChecked
        | none =>
            root_generate env db cache now req cache_key future_expiry_time newId
              ors pollStore none none cacheChecked

/-! ### Update sequences (for the record-field invariants) -/

/-- The arguments of one `_update_db_status` call. -/
structure UpdateArgs where
  status : ScreenshotStatus
  s3_path : Option Str
  error_message : Option Str
deriving DecidableEq, Repr

/-- A sequence of status updates applied to one record. -/
def applyUpdates (r : Rec) (us : List UpdateArgs) : Rec :=
  us.foldl (fun acc u => applyUpdate acc u.status u.s3_path u.error_message) r

/-- Acceptance predicate following the words of the spec sentence behind
claim C5: the URL is accepted when the scheme is http/https, the HOST is
non-empty and, when an allow-list is configured, the (lowercased) host
equals an allowed domain or ends with "." followed by an allowed domain.
This is the spec-worded refinement target to compare with
`validate_domain`, which instead decides on the full netloc. -/
def specHostAccepts (cfg : List Str) (u : Url) : Bool :=
  (u.scheme == "http".data || u.scheme == "https".data) &&
  !(pyLower u.host).isEmpty &&
  (cfg.isEmpty ||
    cfg.any fun allowed =>
      pyLower u.host == allowed || pyEndsWith (pyLower u.host) ('.' :: allowed))

/-! ### Sample values used by witnesses and counterexamples -/

def exUrl : Url :=
  { scheme := "https".data, host := "example.com".data, port := none, path := "/".data }

def exUrlWithPort : Url :=
  { scheme := "https".data, host := "example.com".data, port := some "8443".data,
    path := "/".data }

def exCfg : List Str := ["example.com".data]

def exS3 : Str := "https://s3/img.png".data

def exCompletedRec : Rec :=
  { id := 1, url := urlStr exUrl, s3_path := some exS3, created_at := 0,
    expires_at := 100, status := .completed, error_message := none }

def exProcessingRec : Rec :=
  { id := 1, url := urlStr exUrl, s3_path := none, created_at := 0,
    expires_at := 100, status := .processing, error_message := none }

def exPendingRec : Rec :=
  { id := 1, url := urlStr exUrl, s3_path := none, created_at := 0,
    expires_at := 100, status := .pending, error_message := none }

def exCompletedNoPathRec : Rec :=
  { id := 1, url := urlStr exUrl, s3_path := none, created_at := 0,
    expires_at := 100, status := .completed, error_message := none }

def emptyCache : CacheState := fun _ => none

def exReq : GenRequest :=
  { url := exUrl, ttl := none, width := 1200, height := 630, force_refresh := false }

def exEnvSync : Env :=
  { ALLOWED_SCREENSHOT_DOMAINS := [], CELERY_ENABLED := false,
    SCREENSHOT_DEFAULT_TTL := 86400 }

def exEnvCelery : Env :=
  { ALLOWED_SCREENSHOT_DOMAINS := [], CELERY_ENABLED := true,
    SCREENSHOT_DEFAULT_TTL := 86400 }

def exOracles : Oracles :=
  { createOk := true, work := .ok exS3, enqueueOk := true, failUpdateOk := true }

/-! ### Helper lemmas -/

deriving instance DecidableEq for Except

theorem applyUpdate_id (r : Rec) (st : ScreenshotStatus) (s3 err : Option Str) :
    (applyUpdate r st s3 err).id = r.id := by
  cases st <;> rfl

theorem applyUpdate_status (r : Rec) (st : ScreenshotStatus) (s3 err : Option Str) :
    (applyUpdate r st s3 err).status = st := by
  cases st <;> rfl

theorem getRecord_updateFirst (db : DbState) (rid : Nat) (f : Rec → Rec)
    (hf : ∀ r, (f r).id = r.id) :
    getRecord (updateFirst db rid f) rid = (getRecord db rid).map f := by
  induction db with
  | nil => rfl
  | cons r rest ih =>
    by_cases h : r.id = rid
    · rw [updateFirst, if_pos h, getRecord, getRecord,
        List.find?_cons_of_pos _ (by simpa [hf] using h),
        List.find?_cons_of_pos _ (by simpa using h)]
      rfl
    · rw [updateFirst, if_neg h, getRecord, getRecord,
        List.find?_cons_of_neg _ (by simpa using h),
        List.find?_cons_of_neg _ (by simpa using h)]
      exact ih

theorem getRecord_update (db : DbState) (rid : Nat) (st : ScreenshotStatus)
    (s3 err : Option Str) :
    getRecord (_update_db_status db rid st s3 err).1 rid =
      (getRecord db rid).map (fun r => applyUpdate r st s3 err) := by
  unfold _update_db_status
  cases h : getRecord db rid with
  | none => simp [h]
  | some r =>
      simp only [h]
      rw [getRecord_updateFirst db rid _ (fun r => applyUpdate_id r st s3 err), h]

/-! ### Claim C4 -/

/-- C4: `update_cache` computes the effective TTL as
`max 0 (expiresAt - now)`; it writes the entry (with exactly that TTL,
i.e. absolute expiry `now + ttl`) if and only if the TTL is strictly
positive and the artifact reference is non-empty, and otherwise leaves
the cache untouched, so a key that missed before still misses. -/
theorem update_cache_spec (c : CacheState) (now : Int) (key : Str) (s3_url : Str)
    (expiry : Int) :
    (update_cache c now key s3_url expiry =
      if 0 < max 0 (expiry - now) ∧ s3_url ≠ [] then
        set_cache c now key s3_url (max 0 (expiry - now))
      else c) ∧
    (0 < max 0 (expiry - now) ∧ s3_url ≠ [] →
      (update_cache c now key s3_url expiry) key =
        some (s3_url, now + max 0 (expiry - now)) ∧
      get_cache (update_cache c now key s3_url expiry) now key = some s3_url) ∧
    (¬(0 < max 0 (expiry - now) ∧ s3_url ≠ []) →
      update_cache c now key s3_url expiry = c ∧
      (c key = none →
        get_cache (update_cache c now key s3_url expiry) now key = none)) := by
  refine ⟨rfl, fun h => ?_, fun h => ?_⟩
  · have he : update_cache c now key s3_url expiry key =
        some (s3_url, now + max 0 (expiry - now)) := by
      unfold update_cache set_cache
      rw [if_pos h, if_pos rfl]
    refine ⟨he, ?_⟩
    unfold get_cache
    rw [he]
    show (if now < now + max 0 (expiry - now) then some s3_url else none) = some s3_url
    rw [if_pos (lt_add_of_pos_right now h.1)]
  · have he : update_cache c now key s3_url expiry = c := by
      unfold update_cache
      rw [if_neg h]
    refine ⟨he, fun hm => ?_⟩
    unfold get_cache
    rw [he, hm]

/-- Witness for C4: a positive-TTL write is readable back, and a
zero-TTL populate leaves the key a miss. -/
theorem update_cache_spec_witness :
    get_cache (update_cache emptyCache 0 "k".data exS3 10) 0 "k".data = some exS3 ∧
    get_cache (update_cache emptyCache 0 "k".data exS3 0) 0 "k".data = none := by
  constructor
  · exact ((update_cache_spec emptyCache 0 "k".data exS3 10).2.1 (by decide)).2
  · exact ((update_cache_spec emptyCache 0 "k".data exS3 0).2.2 (by decide)).2 rfl

/-! ### Claim C2 -/

/-- C2 counterexample: the status-update operation applied to a record
already in the terminal state Completed with a Failed update does change
the stored status — there is no terminal-state guard, refuting "a failure
update arriving after the record already reached Completed leaves the
stored status unchanged". -/
theorem failed_update_overwrites_completed :
    exCompletedRec.status = .completed ∧
    (getRecord (_update_db_status [exCompletedRec] 1 .failed none
        (some "boom".data)).1 1).map Rec.status = some .failed := by
  decide

/-- C2 (amended): the status-update operation `_update_db_status`
overwrites the stored status with the requested status unconditionally —
including a Failed update arriving after the record reached Completed or
Failed; no transition is blocked. -/
theorem update_status_unconditional (db : DbState) (rid : Nat)
    (st : ScreenshotStatus) (s3 err : Option Str) (r : Rec)
    (h : getRecord db rid = some r) :
    getRecord (_update_db_status db rid st s3 err).1 rid =
      some (applyUpdate r st s3 err) ∧
    (applyUpdate r st s3 err).status = st := by
  exact ⟨by rw [getRecord_update, h]; rfl, applyUpdate_status r st s3 err⟩

/-- Witness for the amended C2 at a concrete completed record and a
failure update. -/
theorem update_status_unconditional_witness :
    getRecord (_update_db_status [exCompletedRec] 1 .failed none
        (some "boom".data)).1 1 =
      some (applyUpdate exCompletedRec .failed none (some "boom".data)) ∧
    (applyUpdate exCompletedRec .failed none (some "boom".data)).status = .failed :=
  update_status_unconditional [exCompletedRec] 1 .failed none (some "boom".data)
    exCompletedRec rfl

/-! ### Claim C9 -/

/-- C9 counterexample: starting from a fresh record, a completion update
followed by a failure update with an empty message leaves a Failed record
that still carries the artifact reference and whose error detail is the
empty string — refuting "Failed implies a non-empty error detail and no
artifact reference (artifactRef set iff Completed)". -/
theorem failed_after_completed_keeps_artifact :
    (applyUpdates (newRecord 1 (urlStr exUrl) 0 100)
        [⟨.processing, none, none⟩, ⟨.completed, some exS3, none⟩,
         ⟨.failed, none, some []⟩]).status = .failed ∧
    (applyUpdates (newRecord 1 (urlStr exUrl) 0 100)
        [⟨.processing, none, none⟩, ⟨.completed, some exS3, none⟩,
         ⟨.failed, none, some []⟩]).s3_path = some exS3 ∧
    (applyUpdates (newRecord 1 (urlStr exUrl) 0 100)
        [⟨.processing, none, none⟩, ⟨.completed, some exS3, none⟩,
         ⟨.failed, none, some []⟩]).error_message = some [] := by
  decide

/-- C9 (amended): after any sequence of status updates on a fresh record
in which every completion update supplies a non-empty artifact reference,
a Completed record carries a non-empty artifact reference and an empty
error detail, and a Failed record carries a present error detail of at
most 500 characters.  (A failure update does not clear a previously set
artifact reference, and the stored detail is the supplied message
truncated to 500 characters, which may be empty.) -/
theorem record_field_invariants (id : Nat) (url : Str) (now exp : Int)
    (us : List UpdateArgs)
    (hc : ∀ u ∈ us, u.status = .completed → ∃ s, u.s3_path = some s ∧ s ≠ []) :
    ((applyUpdates (newRecord id url now exp) us).status = .completed →
      (∃ s, (applyUpdates (newRecord id url now exp) us).s3_path = some s ∧ s ≠ []) ∧
      (applyUpdates (newRecord id url now exp) us).error_message = none) ∧
    ((applyUpdates (newRecord id url now exp) us).status = .failed →
      ∃ e, (applyUpdates (newRecord id url now exp) us).error_message = some e ∧
        e.length ≤ 500) := by
  have step : ∀ (r : Rec) (u : UpdateArgs),
      (u.status = .completed → ∃ s, u.s3_path = some s ∧ s ≠ []) →
      ((r.status = .completed → (∃ s, r.s3_path = some s ∧ s ≠ []) ∧
          r.error_message = none) ∧
        (r.status = .failed → ∃ e, r.error_message = some e ∧ e.length ≤ 500)) →
      (((applyUpdate r u.status u.s3_path u.error_message).status = .completed →
          (∃ s, (applyUpdate r u.status u.s3_path u.error_message).s3_path = some s ∧
            s ≠ []) ∧
          (applyUpdate r u.status u.s3_path u.error_message).error_message = none) ∧
        ((applyUpdate r u.status u.s3_path u.error_message).status = .failed →
          ∃ e, (applyUpdate r u.status u.s3_path u.error_message).error_message =
            some e ∧ e.length ≤ 500)) := by
    intro r u hu hr
    obtain ⟨st, s3, err⟩ := u
    cases st with
    | completed =>
        refine ⟨fun _ => ⟨?_, rfl⟩, fun hcontra => by simp [applyUpdate] at hcontra⟩
        simpa using hu rfl
    | failed =>
        refine ⟨fun hcontra => by simp [applyUpdate] at hcontra, fun _ => ?_⟩
        refine ⟨(pyStr err).take 500, rfl, ?_⟩
        rw [List.length_take]
        exact min_le_left _ _
    | pending =>
        exact ⟨fun hcontra => by simp [applyUpdate] at hcontra,
          fun hcontra => by simp [applyUpdate] at hcontra⟩
    | processing =>
        exact ⟨fun hcontra => by simp [applyUpdate] at hcontra,
          fun hcontra => by simp [applyUpdate] at hcontra⟩
  have main : ∀ (us : List UpdateArgs) (r : Rec),
      (∀ u ∈ us, u.status = .completed → ∃ s, u.s3_path = some s ∧ s ≠ []) →
      ((r.status = .completed → (∃ s, r.s3_path = some s ∧ s ≠ []) ∧
          r.error_message = none) ∧
        (r.status = .failed → ∃ e, r.error_message = some e ∧ e.length ≤ 500)) →
      (((applyUpdates r us).status = .completed →
          (∃ s, (applyUpdates r us).s3_path = some s ∧ s ≠ []) ∧
          (applyUpdates r us).error_message = none) ∧
        ((applyUpdates r us).status = .failed →
          ∃ e, (applyUpdates r us).error_message = some e ∧ e.length ≤ 500)) := by
    intro us
    induction us with
    | nil => intro r _ hr; exact hr
    | cons u rest ih =>
        intro r hall hr
        have h1 := step r u (hall u (List.mem_cons_self u rest)) hr
        have : applyUpdates r (u :: rest) =
            applyUpdates (applyUpdate r u.status u.s3_path u.error_message) rest := rfl
        rw [this]
        exact ih _ (fun v hv => hall v (List.mem_cons_of_mem u hv)) h1
  exact main us (newRecord id url now exp) hc
    ⟨fun hcontra => by simp [newRecord] at hcontra,
     fun hcontra => by simp [newRecord] at hcontra⟩

/-- Witness for the amended C9: a Pending→Processing→Completed→Failed
sequence with a non-empty artifact on the completion update satisfies the
invariants. -/
theorem record_field_invariants_witness :
    ((applyUpdates (newRecord 1 (urlStr exUrl) 0 100)
        [⟨.processing, none, none⟩, ⟨.completed, some exS3, none⟩,
         ⟨.failed, none, some "boom".data⟩]).status = .completed →
      (∃ s, (applyUpdates (newRecord 1 (urlStr exUrl) 0 100)
          [⟨.processing, none, none⟩, ⟨.completed, some exS3, none⟩,
           ⟨.failed, none, some "boom".data⟩]).s3_path = some s ∧ s ≠ []) ∧
      (applyUpdates (newRecord 1 (urlStr exUrl) 0 100)
          [⟨.processing, none, none⟩, ⟨.completed, some exS3, none⟩,
           ⟨.failed, none, some "boom".data⟩]).error_message = none) ∧
    ((applyUpdates (newRecord 1 (urlStr exUrl) 0 100)
        [⟨.processing, none, none⟩, ⟨.completed, some exS3, none⟩,
         ⟨.failed, none, some "boom".data⟩]).status = .failed →
      ∃ e, (applyUpdates (newRecord 1 (urlStr exUrl) 0 100)
          [⟨.processing, none, none⟩, ⟨.completed, some exS3, none⟩,
           ⟨.failed, none, some "boom".data⟩]).error_message = some e ∧
        e.length ≤ 500) :=
  record_field_invariants 1 (urlStr exUrl) 0 100
    [⟨.processing, none, none⟩, ⟨.completed, some exS3, none⟩,
     ⟨.failed, none, some "boom".data⟩]
    (by intro u hu hcu; fin_cases hu <;> simp_all; decide)

/-! ### Claim C7 -/

/-- C7: when the Renderer+Publisher step of the inline generation raises,
`run_sync_generation` re-raises the original error unchanged; when the
best-effort FAILED recording commits, the record ends Failed with the
error detail truncated to 500 characters; when the recording itself
fails, the original error is still the surfaced result and the table
keeps only the Processing mark.  The cache is untouched either way. -/
theorem run_sync_generation_failure_path (db : DbState) (cache : CacheState)
    (now : Int) (rid : Nat) (e : Str) (failUpdateOk : Bool) (key : Str)
    (exp : Int) (r : Rec) (h : getRecord db rid = some r) :
    (run_sync_generation db cache now rid (.error e) failUpdateOk key exp).1 =
      .error e ∧
    (run_sync_generation db cache now rid (.error e) failUpdateOk key exp).2.2 =
      cache ∧
    (failUpdateOk = true →
      getRecord
        (run_sync_generation db cache now rid (.error e) failUpdateOk key exp).2.1
        rid =
        some (applyUpdate (applyUpdate r .processing none none) .failed none
          (some e)) ∧
      (applyUpdate (applyUpdate r .processing none none) .failed none
        (some e)).status = .failed ∧
      (applyUpdate (applyUpdate r .processing none none) .failed none
        (some e)).error_message = some (e.take 500)) ∧
    (failUpdateOk = false →
      (run_sync_generation db cache now rid (.error e) failUpdateOk key exp).2.1 =
        (_update_db_status db rid .processing none none).1) := by
  refine ⟨rfl, rfl, fun hf => ?_, fun hf => ?_⟩
  · subst hf
    refine ⟨?_, rfl, rfl⟩
    show getRecord
        (_update_db_status (_update_db_status db rid .processing none none).1 rid
          .failed none (some e)).1 rid = _
    rw [getRecord_update, getRecord_update, h]
    rfl
  · subst hf
    rfl

/-- Witness for C7 at a concrete pending record and failing work step. -/
theorem run_sync_generation_failure_path_witness :
    (run_sync_generation [exPendingRec] emptyCache 0 1 (.error "boom".data) true
        "k".data 100).1 = .error "boom".data ∧
    (run_sync_generation [exPendingRec] emptyCache 0 1 (.error "boom".data) true
        "k".data 100).2.2 = emptyCache ∧
    (true = true →
      getRecord (run_sync_generation [exPendingRec] emptyCache 0 1
          (.error "boom".data) true "k".data 100).2.1 1 =
        some (applyUpdate (applyUpdate exPendingRec .processing none none) .failed
          none (some "boom".data)) ∧
      (applyUpdate (applyUpdate exPendingRec .processing none none) .failed none
        (some "boom".data)).status = .failed ∧
      (applyUpdate (applyUpdate exPendingRec .processing none none) .failed none
        (some "boom".data)).error_message = some ("boom".data.take 500)) ∧
    (true = false →
      (run_sync_generation [exPendingRec] emptyCache 0 1 (.error "boom".data) true
          "k".data 100).2.1 =
        (_update_db_status [exPendingRec] 1 .processing none none).1) :=
  run_sync_generation_failure_path [exPendingRec] emptyCache 0 1 "boom".data true
    "k".data 100 exPendingRec rfl

/-! ### Claim C8 -/

/-- C8: when the Celery handoff raises, `dispatch_celery_task` surfaces a
500 dispatch failure ("Failed to queue generation task") rather than
success; when the best-effort FAILED recording commits, the record ends
Failed with the "Failed to queue task" detail; a failure while recording
leaves the table unchanged but the dispatch failure is still surfaced. -/
theorem dispatch_celery_task_failure_path (db : DbState) (rid : Nat)
    (failUpdateOk : Bool) (r : Rec) (h : getRecord db rid = some r) :
    (dispatch_celery_task db rid false failUpdateOk).1 =
      .error (500, "Failed to queue generation task".data) ∧
    (failUpdateOk = true →
      getRecord (dispatch_celery_task db rid false failUpdateOk).2 rid =
        some (applyUpdate r .failed none (some "Failed to queue task".data)) ∧
      (applyUpdate r .failed none (some "Failed to queue task".data)).status =
        .failed ∧
      (applyUpdate r .failed none
        (some "Failed to queue task".data)).error_message =
        some "Failed to queue task".data) ∧
    (failUpdateOk = false →
      (dispatch_celery_task db rid false failUpdateOk).2 = db) := by
  refine ⟨rfl, fun hf => ?_, fun hf => ?_⟩
  · subst hf
    refine ⟨?_, rfl, rfl⟩
    show getRecord
        (_update_db_status db rid .failed none (some "Failed to queue task".data)).1
        rid = _
    rw [getRecord_update, h]
    rfl
  · subst hf
    rfl

/-- Witness for C8 at a concrete pending record. -/
theorem dispatch_celery_task_failure_path_witness :
    (dispatch_celery_task [exPendingRec] 1 false true).1 =
      .error (500, "Failed to queue generation task".data) ∧
    (true = true →
      getRecord (dispatch_celery_task [exPendingRec] 1 false true).2 1 =
        some (applyUpdate exPendingRec .failed none
          (some "Failed to queue task".data)) ∧
      (applyUpdate exPendingRec .failed none
        (some "Failed to queue task".data)).status = .failed ∧
      (applyUpdate exPendingRec .failed none
        (some "Failed to queue task".data)).error_message =
        some "Failed to queue task".data) ∧
    (true = false → (dispatch_celery_task [exPendingRec] 1 false true).2 =
      [exPendingRec]) :=
  dispatch_celery_task_failure_path [exPendingRec] 1 true exPendingRec rfl

/-! ### Claims C5 and C10: URL validation -/

theorem digit_toLower (c : Char) (h : c.isDigit = true) : c.toLower = c := by
  simp [Char.isDigit, decide_eq_true_eq] at h
  have h2 : c.toNat ≤ 57 := h.2
  simp [Char.toLower]
  omega

/-- C5 counterexample: with allow-list `["example.com"]`, the URL
`https://example.com:8443/` has scheme https and host `example.com`, an
allowed domain, so the claimed host-based acceptance predicate accepts
it; but `validate_domain` decides on the netloc `example.com:8443` and
rejects with a domain-not-allowed error. -/
theorem port_url_rejected_despite_allowed_host :
    specHostAccepts exCfg exUrlWithPort = true ∧
    validate_domain exCfg exUrlWithPort =
      .error (.notAllowed (pyLower (netloc exUrlWithPort))) := by
  decide

/-- C5 (amended): validation accepts a URL if and only if the scheme is
http or https, the lowercased NETLOC (host plus any explicit port) is
non-empty, and, when a domain allow-list is configured, the lowercased
netloc equals an allowed domain or ends with "." followed by an allowed
domain; and every request failing validation is answered by the handler
with a 400 error carrying the concrete reason, with no record created,
no cache access, no dispatch and no inline generation, and the table and
cache left untouched. -/
theorem validate_domain_spec :
    (∀ (cfg : List Str) (u : Url),
      (∃ d, validate_domain cfg u = .ok d) ↔
        ((u.scheme = "http".data ∨ u.scheme = "https".data) ∧
          pyLower (netloc u) ≠ [] ∧
          (cfg = [] ∨ ∃ a ∈ cfg, pyLower (netloc u) = a ∨
            pyEndsWith (pyLower (netloc u)) ('.' :: a) = true))) ∧
    (∀ (env : Env) (db : DbState) (cache : CacheState) (now : Int)
        (req : GenRequest) (newId : Nat) (ors : Oracles) (e : DomainValidationError),
      validate_domain env.ALLOWED_SCREENSHOT_DOMAINS req.url = .error e →
      generate_og_image env db cache now req newId ors =
        { response := .errorResponse 400 (validationDetail e), db := db,
          cache := cache, createdRecord := none, cacheChecked := false,
          dispatched := false, ranSync := false }) := by
  constructor
  · intro cfg u
    unfold validate_domain
    by_cases h1 : (u.scheme = "http".data ∨ u.scheme = "https".data) ∧
        pyLower (netloc u) ≠ []
    · rw [if_neg (not_not_intro h1)]
      by_cases h2 : cfg ≠ [] ∧
          ¬(cfg.any fun allowed => pyLower (netloc u) = allowed ||
              pyEndsWith (pyLower (netloc u)) ('.' :: allowed)) = true
      · rw [if_pos h2]
        simp only [List.any_eq_true, Bool.or_eq_true, decide_eq_true_eq] at h2
        constructor
        · rintro ⟨d, hd⟩; cases hd
        · rintro ⟨-, -, hmatch⟩
          rcases hmatch with hnil | hex
          · exact absurd hnil h2.1
          · exact absurd hex h2.2
      · rw [if_neg h2]
        push_neg at h2
        constructor
        · rintro -
          refine ⟨h1.1, h1.2, ?_⟩
          by_cases hnil : cfg = []
          · exact Or.inl hnil
          · refine Or.inr ?_
            have := h2 hnil
            simpa [List.any_eq_true, Bool.or_eq_true, decide_eq_true_eq]
              using this
        · rintro -
          exact ⟨_, rfl⟩
    · rw [if_pos h1]
      constructor
      · rintro ⟨d, hd⟩; cases hd
      · rintro ⟨hs, hne, -⟩
        exact absurd ⟨hs, hne⟩ h1
  · intro env db cache now req newId ors e h
    unfold generate_og_image
    rw [h]

/-- Witness for the amended C5: the acceptance characterization at a
concrete accepted URL, and the untouched-state 400 rejection at a
concrete disallowed URL. -/
theorem validate_domain_spec_witness :
    (∃ d, validate_domain exCfg exUrl = .ok d) ∧
    generate_og_image { exEnvSync with ALLOWED_SCREENSHOT_DOMAINS := exCfg }
        [] emptyCache 0 { exReq with url := exUrlWithPort } 1 exOracles =
      { response := .errorResponse 400
          (validationDetail (.notAllowed (pyLower (netloc exUrlWithPort)))),
        db := [], cache := emptyCache, createdRecord := none,
        cacheChecked := false, dispatched := false, ranSync := false } := by
  constructor
  · exact (validate_domain_spec.1 exCfg exUrl).2 (by decide)
  · exact validate_domain_spec.2 _ [] emptyCache 0 _ 1 exOracles
      (.notAllowed (pyLower (netloc exUrlWithPort))) (by decide)

/-- C10: with a configured allow-list of plain domain names (no colon in
any entry), a URL whose host is an allowed domain but which carries an
explicit (digit) port is rejected with the domain-not-allowed error,
because membership is decided on the full lowercased netloc, which
includes the port. -/
theorem validate_domain_rejects_explicit_port (cfg : List Str) (u : Url) (p : Str)
    (hcfg : cfg ≠ [])
    (hnc : ∀ a ∈ cfg, ':' ∉ a)
    (hport : u.port = some p)
    (hdig : ∀ c ∈ p, c.isDigit = true)
    (hscheme : u.scheme = "http".data ∨ u.scheme = "https".data)
    (_hhost : pyLower u.host ∈ cfg) :
    validate_domain cfg u = .error (.notAllowed (pyLower (netloc u))) := by
  have hdom : pyLower (netloc u) = pyLower u.host ++ ':' :: p := by
    have hp : List.map Char.toLower p = p := by
      have h1 : List.map Char.toLower p = List.map (fun c => c) p :=
        List.map_congr_left (fun c hc => digit_toLower c (hdig c hc))
      simpa using h1
    have hcl : Char.toLower ':' = ':' := rfl
    simp [netloc, pyLower, hport, hp, hcl]
  have hne : pyLower (netloc u) ≠ [] := by
    rw [hdom]
    simp
  have hcolon : ':' ∈ pyLower (netloc u) := by
    rw [hdom]
    exact List.mem_append_right _ (List.mem_cons_self _ _)
  have hnomatch : ∀ a ∈ cfg,
      (pyLower (netloc u) = a ∨
        pyEndsWith (pyLower (netloc u)) ('.' :: a) = true) → False := by
    intro a ha hm
    rcases hm with heq | hsuf
    · exact hnc a ha (heq ▸ hcolon)
    · rw [pyEndsWith, List.isSuffixOf_iff_suffix] at hsuf
      rw [hdom] at hsuf
      have hcp : ':' :: p <:+ pyLower u.host ++ ':' :: p :=
        List.suffix_append _ _
      rcases List.suffix_or_suffix_of_suffix hsuf hcp with h1 | h1
      · rcases List.suffix_cons_iff.mp h1 with h2 | h2
        · exact absurd (List.head_eq_of_cons_eq h2) (by decide)
        · have : ('.' : Char) ∈ p := h2.subset (List.mem_cons_self _ _)
          have := hdig _ this
          simp [Char.isDigit] at this
      · have : (':' : Char) ∈ '.' :: a := h1.subset (List.mem_cons_self _ _)
        rcases List.mem_cons.mp this with h2 | h2
        · exact absurd h2 (by decide)
        · exact hnc a ha h2
  have hany : ¬ ((cfg.any fun allowed => pyLower (netloc u) = allowed ||
      pyEndsWith (pyLower (netloc u)) ('.' :: allowed)) = true) := by
    intro hx
    rw [List.any_eq_true] at hx
    obtain ⟨a, ha, hm⟩ := hx
    rw [Bool.or_eq_true, decide_eq_true_eq] at hm
    exact hnomatch a ha hm
  unfold validate_domain
  rw [if_neg (not_not_intro ⟨hscheme, hne⟩), if_pos ⟨hcfg, hany⟩]

/-- Witness for C10: `https://example.com:8443/` against the allow-list
`["example.com"]`. -/
theorem validate_domain_rejects_explicit_port_witness :
    validate_domain exCfg exUrlWithPort =
      .error (.notAllowed (pyLower (netloc exUrlWithPort))) :=
  validate_domain_rejects_explicit_port exCfg exUrlWithPort "8443".data
    (by decide) (by decide) rfl (by decide) (by decide) (by decide)

/-! ### Claim C6: the completion poller -/

/-- A store observation that keeps the poll loop going: the record exists
and is neither Completed nor Failed. -/
def inflight (o : Option Rec) : Prop :=
  ∃ r, o = some r ∧ r.status ≠ .completed ∧ r.status ≠ .failed

theorem pollLoop_step (store : Nat → Option Rec) (cache : CacheState) (now : Int)
    (key : Str) (fuel t : Nat) (h : inflight (store t)) :
    pollLoop store cache now key (fuel + 1) t =
      pollLoop store cache now key fuel (t + pollIntervalSeconds) := by
  obtain ⟨r, hr, hc, hf⟩ := h
  simp [pollLoop, hr, hc, hf]

theorem pollLoop_reach (store : Nat → Option Rec) (cache : CacheState) (now : Int)
    (key : Str) :
    ∀ k, k ≤ 30 → (∀ j, j < k → inflight (store (2 * j))) →
      poll_task_completion store cache now key =
        pollLoop store cache now key (30 - k) (2 * k) := by
  intro k
  induction k with
  | zero => intro _ _; rfl
  | succ k ih =>
      intro hk hpre
      rw [ih (by omega) (fun j hj => hpre j (by omega)),
        show 30 - k = (30 - (k + 1)) + 1 by omega,
        pollLoop_step store cache now key _ _ (hpre k (by omega)),
        show 2 * k + pollIntervalSeconds = 2 * (k + 1) by
          simp [pollIntervalSeconds]; omega]

/-- C6: the completion poller polls at a fixed 2-second interval under
the 60-second deadline (poll slots k < 30 at elapsed time 2k) and yields
exactly one of four outcomes.  If every slot observes an in-flight
record, the result is the 504 timeout, distinct from generation failure.
At the first slot whose observation is not in-flight: a missing record
produces the 500 internal-consistency failure; a Failed record produces
the 500 generation failure carrying the record's error detail; a
Completed record returns its artifact reference, populating the cache
exactly when the reference is non-empty. -/
theorem poll_task_completion_cases (store : Nat → Option Rec) (cache : CacheState)
    (now : Int) (key : Str) :
    ((∀ j, j < 30 → inflight (store (2 * j))) →
      poll_task_completion store cache now key =
        (.timeoutResult 504 pollTimeoutDetail, cache)) ∧
    (∀ k, k < 30 → (∀ j, j < k → inflight (store (2 * j))) →
      (store (2 * k) = none →
        poll_task_completion store cache now key =
          (.notFoundResult 500 pollNotFoundDetail, cache)) ∧
      (∀ r, store (2 * k) = some r →
        (r.status = .completed →
          poll_task_completion store cache now key =
            (.completedResult r.s3_path,
              if pyTruthy r.s3_path then
                update_cache cache (now + 2 * k) key (r.s3_path.getD [])
                  r.expires_at
              else cache)) ∧
        (r.status = .failed →
          poll_task_completion store cache now key =
            (.failedResult 500 (pollFailedDetail r.error_message), cache)))) := by
  constructor
  · intro hall
    rw [pollLoop_reach store cache now key 30 (le_refl 30) (fun j hj => hall j hj)]
    rfl
  · intro k hk hpre
    have hreach := pollLoop_reach store cache now key k (by omega) hpre
    have hfuel : 30 - k = (30 - (k + 1)) + 1 := by omega
    constructor
    · intro hnone
      rw [hreach, hfuel]
      simp [pollLoop, hnone]
    · intro r hr
      constructor
      · intro hcomp
        rw [hreach, hfuel]
        simp only [pollLoop, hr]
        rw [if_pos hcomp]
        push_cast
        rfl
      · intro hfail
        rw [hreach, hfuel]
        simp only [pollLoop, hr]
        rw [if_neg (by simp [hfail]), if_pos hfail]

/-- Witness for C6: a store stuck in Processing forever yields the 504
timeout with the cache untouched. -/
theorem poll_task_completion_cases_witness :
    poll_task_completion (fun _ => some exProcessingRec) emptyCache 0 "k".data =
      (.timeoutResult 504 pollTimeoutDetail, emptyCache) :=
  (poll_task_completion_cases (fun _ => some exProcessingRec) emptyCache 0
      "k".data).1
    (fun _ _ => ⟨exProcessingRec, rfl, by decide, by decide⟩)

/-! ### Claim C1: in-flight record short-circuit -/

/-- C1 counterexample: in inline (sync) mode, a root request that misses
the cache and finds a Processing, unexpired record for the URL creates a
second record and starts a second generation — refuting "the handler ...
creates no new GenerationRecord, and starts no new generation work" for
the root handler. -/
theorem root_sync_inflight_creates_new_record :
    check_cache emptyCache 0 (og_cache_key exReq.url exReq.width exReq.height) =
      none ∧
    find_existing_record [exProcessingRec] (urlStr exReq.url) =
      some exProcessingRec ∧
    exProcessingRec.status = .processing ∧
    (0 : Int) < exProcessingRec.expires_at ∧
    exReq.force_refresh = false ∧
    exEnvSync.CELERY_ENABLED = false ∧
    (root_handler exEnvSync [exProcessingRec] emptyCache 0 (some exReq) 2
        exOracles (fun _ => none)).createdRecord = some 2 ∧
    (root_handler exEnvSync [exProcessingRec] emptyCache 0 (some exReq) 2
        exOracles (fun _ => none)).ranSync = true := by
  decide

/-- C1 (amended): on a forceRefresh-false cache miss whose most recent
record for the URL is Pending/Processing and unexpired, the JSON
generation endpoint returns InProgress with the existing record's id,
creating no record and starting no generation work, unconditionally; the
root handler does the same (awaiting the existing record by polling its
id, creating nothing) only when deferred dispatch is enabled — in inline
mode the root handler instead creates a new record and starts a new
inline generation. -/
theorem inflight_record_short_circuits (env : Env) (db : DbState)
    (cache : CacheState) (now : Int) (req : GenRequest) (newId : Nat)
    (ors : Oracles) (r : Rec) (d : Str)
    (hv : validate_domain env.ALLOWED_SCREENSHOT_DOMAINS req.url = .ok d)
    (hfr : req.force_refresh = false)
    (hmiss : check_cache cache now (og_cache_key req.url req.width req.height) =
      none)
    (hfind : find_existing_record db (urlStr req.url) = some r)
    (hst : r.status = .pending ∨ r.status = .processing)
    (hexp : now < r.expires_at) :
    (generate_og_image env db cache now req newId ors =
      { response := .processingResponse r.id, db := db, cache := cache,
        createdRecord := none, cacheChecked := true, dispatched := false,
        ranSync := false }) ∧
    (env.CELERY_ENABLED = true → ∀ pollStore,
      (root_handler env db cache now (some req) newId ors pollStore).createdRecord =
        none ∧
      (root_handler env db cache now (some req) newId ors pollStore).polled =
        some r.id ∧
      (root_handler env db cache now (some req) newId ors pollStore).dispatched =
        false ∧
      (root_handler env db cache now (some req) newId ors pollStore).ranSync =
        false ∧
      (root_handler env db cache now (some req) newId ors pollStore).db = db) ∧
    (env.CELERY_ENABLED = false → ors.createOk = true → ∀ pollStore,
      (root_handler env db cache now (some req) newId ors pollStore).createdRecord =
        some newId ∧
      (root_handler env db cache now (some req) newId ors pollStore).ranSync =
        true) := by
  have hnc : ¬(r.status = .completed ∧ now < r.expires_at) := by
    rintro ⟨h1, -⟩
    rcases hst with h2 | h2 <;> rw [h2] at h1 <;> exact ScreenshotStatus.noConfusion h1
  refine ⟨?_, ?_, ?_⟩
  · simp only [generate_og_image, hv, hfr, hmiss, hfind, Bool.false_eq_true,
      if_false]
    rw [if_neg hnc, if_pos ⟨hst, hexp⟩]
    rfl
  · intro hcel pollStore
    simp only [root_handler, hv, hfr, hmiss, hfind, hcel, Bool.false_eq_true,
      if_false]
    rw [if_neg hnc, if_pos ⟨hst, hexp⟩]
    simp [root_generate]
  · intro hcel hcreate pollStore
    simp only [root_handler, hv, hfr, hmiss, hfind, hcel, Bool.false_eq_true,
      if_false]
    rw [if_neg hnc, if_pos ⟨hst, hexp⟩]
    simp only [root_generate, hcreate, hcel, if_true, Bool.false_eq_true,
      if_false]
    rcases hX : run_sync_generation
        (newRecord newId (urlStr req.url) now
          (now + match req.ttl with
                 | some h => h * 3600
                 | none => env.SCREENSHOT_DEFAULT_TTL) :: db) cache now newId
        ors.work ors.failUpdateOk (og_cache_key req.url req.width req.height)
        (now + match req.ttl with
               | some h => h * 3600
               | none => env.SCREENSHOT_DEFAULT_TTL) with
      ⟨res, db2, c2⟩
    cases res <;> rw [hX] <;> exact ⟨rfl, rfl⟩

/-- Witness for the amended C1 at a concrete Processing record: the JSON
endpoint short-circuits and the Celery-mode root handler polls the
existing record. -/
theorem inflight_record_short_circuits_witness :
    (generate_og_image exEnvCelery [exProcessingRec] emptyCache 0 exReq 2
        exOracles =
      { response := .processingResponse exProcessingRec.id, db := [exProcessingRec],
        cache := emptyCache, createdRecord := none, cacheChecked := true,
        dispatched := false, ranSync := false }) ∧
    (exEnvCelery.CELERY_ENABLED = true → ∀ pollStore,
      (root_handler exEnvCelery [exProcessingRec] emptyCache 0 (some exReq) 2
          exOracles pollStore).createdRecord = none ∧
      (root_handler exEnvCelery [exProcessingRec] emptyCache 0 (some exReq) 2
          exOracles pollStore).polled = some exProcessingRec.id ∧
      (root_handler exEnvCelery [exProcessingRec] emptyCache 0 (some exReq) 2
          exOracles pollStore).dispatched = false ∧
      (root_handler exEnvCelery [exProcessingRec] emptyCache 0 (some exReq) 2
          exOracles pollStore).ranSync = false ∧
      (root_handler exEnvCelery [exProcessingRec] emptyCache 0 (some exReq) 2
          exOracles pollStore).db = [exProcessingRec]) ∧
    (exEnvCelery.CELERY_ENABLED = false → exOracles.createOk = true →
      ∀ pollStore,
      (root_handler exEnvCelery [exProcessingRec] emptyCache 0 (some exReq) 2
          exOracles pollStore).createdRecord = some 2 ∧
      (root_handler exEnvCelery [exProcessingRec] emptyCache 0 (some exReq) 2
          exOracles pollStore).ranSync = true) :=
  inflight_record_short_circuits exEnvCelery [exProcessingRec] emptyCache 0 exReq
    2 exOracles exProcessingRec (pyLower (netloc exReq.url)) rfl rfl rfl rfl
    (Or.inr rfl) (by decide)

/-! ### Claim C3: reuse of a fresh Completed record -/

theorem get_update_cache_hit (c : CacheState) (now : Int) (key : Str) (v : Str)
    (e : Int) (hpos : now < e) (hv : v ≠ []) :
    get_cache (update_cache c now key v e) now key = some v := by
  have h2 : 0 < max 0 (e - now) :=
    lt_of_lt_of_le (by omega) (le_max_right 0 (e - now))
  have he : update_cache c now key v e key = some (v, now + max 0 (e - now)) := by
    unfold update_cache set_cache
    rw [if_pos ⟨h2, hv⟩, if_pos rfl]
  unfold get_cache
  rw [he]
  show (if now < now + max 0 (e - now) then some v else none) = some v
  rw [if_pos (lt_add_of_pos_right now h2)]

/-- C3 counterexample: a root request that misses the cache and finds a
Completed, unexpired record whose artifact reference is missing returns a
500 error page and creates no new record — refuting "the handler instead
falls through to creating a new record and regenerating" for the root
handler. -/
theorem root_completed_missing_artifact_500 :
    check_cache emptyCache 0 (og_cache_key exReq.url exReq.width exReq.height) =
      none ∧
    find_existing_record [exCompletedNoPathRec] (urlStr exReq.url) =
      some exCompletedNoPathRec ∧
    exCompletedNoPathRec.status = .completed ∧
    (0 : Int) < exCompletedNoPathRec.expires_at ∧
    exCompletedNoPathRec.s3_path = none ∧
    exReq.force_refresh = false ∧
    (root_handler exEnvSync [exCompletedNoPathRec] emptyCache 0 (some exReq) 2
        exOracles (fun _ => none)).response =
      .htmlError 500
        ("Image generation failed: ".data ++
          "Internal error after sync processing.".data) ∧
    (root_handler exEnvSync [exCompletedNoPathRec] emptyCache 0 (some exReq) 2
        exOracles (fun _ => none)).createdRecord = none ∧
    (root_handler exEnvSync [exCompletedNoPathRec] emptyCache 0 (some exReq) 2
        exOracles (fun _ => none)).ranSync = false := by
  decide

/-- C3 (amended): on a forceRefresh-false cache miss whose most recent
record for the URL is Completed and unexpired: with a non-empty artifact
reference, both handlers repopulate the cache entry for the fingerprint
and serve that reference (JSON "cached" response resp. redirect) without
creating a record, dispatching, or running inline generation; with a
missing/empty artifact reference, the JSON generation endpoint falls
through to creating a new record and regenerating, while the root
handler instead returns a 500 error page and creates no record. -/
theorem completed_record_reuse (env : Env) (db : DbState) (cache : CacheState)
    (now : Int) (req : GenRequest) (newId : Nat) (ors : Oracles) (r : Rec)
    (d : Str)
    (hv : validate_domain env.ALLOWED_SCREENSHOT_DOMAINS req.url = .ok d)
    (hfr : req.force_refresh = false)
    (hmiss : check_cache cache now (og_cache_key req.url req.width req.height) =
      none)
    (hfind : find_existing_record db (urlStr req.url) = some r)
    (hst : r.status = .completed)
    (hexp : now < r.expires_at) :
    (∀ s3, r.s3_path = some s3 → s3 ≠ [] →
      (generate_og_image env db cache now req newId ors =
        { response := .cachedResponse "cached".data s3, db := db,
          cache := update_cache cache now
            (og_cache_key req.url req.width req.height) s3 r.expires_at,
          createdRecord := none, cacheChecked := true, dispatched := false,
          ranSync := false }) ∧
      check_cache
        (update_cache cache now (og_cache_key req.url req.width req.height) s3
          r.expires_at) now (og_cache_key req.url req.width req.height) =
        some s3 ∧
      (∀ pollStore, root_handler env db cache now (some req) newId ors pollStore =
        { response := .redirectResponse (some s3), db := db,
          cache := update_cache cache now
            (og_cache_key req.url req.width req.height) s3 r.expires_at,
          createdRecord := none, cacheChecked := true, dispatched := false,
          ranSync := false, polled := none })) ∧
    (pyTruthy r.s3_path = false → ors.createOk = true →
      ((generate_og_image env db cache now req newId ors).createdRecord =
        some newId ∧
       (generate_og_image env db cache now req newId ors).dispatched =
        env.CELERY_ENABLED ∧
       (generate_og_image env db cache now req newId ors).ranSync =
        !env.CELERY_ENABLED) ∧
      (∀ pollStore,
        (root_handler env db cache now (some req) newId ors
          pollStore).createdRecord = none ∧
        (root_handler env db cache now (some req) newId ors
          pollStore).dispatched = false ∧
        (root_handler env db cache now (some req) newId ors pollStore).ranSync =
          false ∧
        (env.CELERY_ENABLED = false →
          (root_handler env db cache now (some req) newId ors
            pollStore).response =
            .htmlError 500
              ("Image generation failed: ".data ++
                "Internal error after sync processing.".data)) ∧
        (env.CELERY_ENABLED = true →
          (root_handler env db cache now (some req) newId ors
            pollStore).response =
            .htmlError 500
              "Image generation is in progress or encountered an issue. Please check API status or try again.".data))) := by
  constructor
  · intro s3 hs3 hne
    have hptrue : pyTruthy r.s3_path = true := by
      simp [pyTruthy, hs3, hne]
    refine ⟨?_, get_update_cache_hit cache now _ s3 r.expires_at hexp hne, ?_⟩
    · simp only [generate_og_image, hv, hfr, hmiss, hfind, Bool.false_eq_true,
        if_false]
      rw [if_pos ⟨hst, hexp⟩, if_pos hptrue]
      simp [hs3]
    · intro pollStore
      simp only [root_handler, hv, hfr, hmiss, hfind, Bool.false_eq_true,
        if_false]
      rw [if_pos ⟨hst, hexp⟩, if_pos hptrue]
      simp [hs3]
  · intro hpfalse hcreate
    constructor
    · simp only [generate_og_image, hv, hfr, hmiss, hfind, Bool.false_eq_true,
        if_false]
      rw [if_pos ⟨hst, hexp⟩, if_neg (by simp [hpfalse])]
      simp only [generate_new, hcreate, if_true]
      cases hc : env.CELERY_ENABLED
      · rcases hX : run_sync_generation
            (newRecord newId (urlStr req.url) now
              (now + match req.ttl with
                     | some h => h * 3600
                     | none => env.SCREENSHOT_DEFAULT_TTL) :: db) cache now newId
            ors.work ors.failUpdateOk (og_cache_key req.url req.width req.height)
            (now + match req.ttl with
                   | some h => h * 3600
                   | none => env.SCREENSHOT_DEFAULT_TTL) with
          ⟨res, db2, c2⟩
        cases res <;> rw [hX] <;> exact ⟨rfl, rfl, rfl⟩
      · rcases hX : dispatch_celery_task
            (newRecord newId (urlStr req.url) now
              (now + match req.ttl with
                     | some h => h * 3600
                     | none => env.SCREENSHOT_DEFAULT_TTL) :: db) newId
            ors.enqueueOk ors.failUpdateOk with ⟨res, db2⟩
        cases res with
        | ok u => rw [hX]; exact ⟨rfl, rfl, rfl⟩
        | error p =>
            obtain ⟨code, detail⟩ := p
            rw [hX]
            exact ⟨rfl, rfl, rfl⟩
    · intro pollStore
      simp only [root_handler, hv, hfr, hmiss, hfind, Bool.false_eq_true,
        if_false]
      rw [if_pos ⟨hst, hexp⟩, if_neg (by simp [hpfalse])]
      cases hc : env.CELERY_ENABLED <;> simp [root_generate, hc]

/-- Witness for the amended C3 at a concrete fresh Completed record with
a non-empty artifact reference. -/
theorem completed_record_reuse_witness :
    (∀ s3, exCompletedRec.s3_path = some s3 → s3 ≠ [] →
      (generate_og_image exEnvSync [exCompletedRec] emptyCache 0 exReq 2
          exOracles =
        { response := .cachedResponse "cached".data s3, db := [exCompletedRec],
          cache := update_cache emptyCache 0
            (og_cache_key exReq.url exReq.width exReq.height) s3
            exCompletedRec.expires_at,
          createdRecord := none, cacheChecked := true, dispatched := false,
          ranSync := false }) ∧
      check_cache
        (update_cache emptyCache 0 (og_cache_key exReq.url exReq.width exReq.height)
          s3 exCompletedRec.expires_at) 0
        (og_cache_key exReq.url exReq.width exReq.height) = some s3 ∧
      (∀ pollStore, root_handler exEnvSync [exCompletedRec] emptyCache 0
          (some exReq) 2 exOracles pollStore =
        { response := .redirectResponse (some s3), db := [exCompletedRec],
          cache := update_cache emptyCache 0
            (og_cache_key exReq.url exReq.width exReq.height) s3
            exCompletedRec.expires_at,
          createdRecord := none, cacheChecked := true, dispatched := false,
          ranSync := false, polled := none })) ∧
    (pyTruthy exCompletedRec.s3_path = false → exOracles.createOk = true →
      ((generate_og_image exEnvSync [exCompletedRec] emptyCache 0 exReq 2
          exOracles).createdRecord = some 2 ∧
       (generate_og_image exEnvSync [exCompletedRec] emptyCache 0 exReq 2
          exOracles).dispatched = exEnvSync.CELERY_ENABLED ∧
       (generate_og_image exEnvSync [exCompletedRec] emptyCache 0 exReq 2
          exOracles).ranSync = !exEnvSync.CELERY_ENABLED) ∧
      (∀ pollStore,
        (root_handler exEnvSync [exCompletedRec] emptyCache 0 (some exReq) 2
          exOracles pollStore).createdRecord = none ∧
        (root_handler exEnvSync [exCompletedRec] emptyCache 0 (some exReq) 2
          exOracles pollStore).dispatched = false ∧
        (root_handler exEnvSync [exCompletedRec] emptyCache 0 (some exReq) 2
          exOracles pollStore).ranSync = false ∧
        (exEnvSync.CELERY_ENABLED = false →
          (root_handler exEnvSync [exCompletedRec] emptyCache 0 (some exReq) 2
            exOracles pollStore).response =
            .htmlError 500
              ("Image generation failed: ".data ++
                "Internal error after sync processing.".data)) ∧
        (exEnvSync.CELERY_ENABLED = true →
          (root_handler exEnvSync [exCompletedRec] emptyCache 0 (some exReq) 2
            exOracles pollStore).response =
            .htmlError 500
              "Image generation is in progress or encountered an issue. Please check API status or try again.".data))) :=
  completed_record_reuse exEnvSync [exCompletedRec] emptyCache 0 exReq 2
    exOracles exCompletedRec (pyLower (netloc exReq.url)) rfl rfl rfl rfl rfl
    (by decide)

end OgImage
